import Mathlib

/-!
Shallow embedding of `src/compiler.js`: a small Velocity-inspired template
renderer (tokenizer, conditional-frame state machine, `#set` assignment with
integer normalization, builtin-namespace protection, and the optional
external-backend wrapper `renderTemplate`).

JS numbers are IEEE doubles; they are modelled here as rationals, which agrees
with the source on all integer-valued arithmetic and on the truncation
behaviour exercised by the properties below.  The JS expression evaluator
(`evaluateExpression`) executes arbitrary expression text via `node:vm`; the
interpreter treats it as an opaque collaborator, so it is modelled as an
explicit `Evaluator` parameter threaded through the state machine exactly
where the source calls it.
-/

set_option autoImplicit false

deriving instance DecidableEq for Except

namespace VTL

/-- A template value: a JS number (modelled as a rational), a string, a
boolean, the frozen builtin `Integer` helper object, or `undefined`. -/
inductive Value where
  | num (q : ℚ)
  | str (s : String)
  | bool (b : Bool)
  | builtinInteger
  | undef
deriving DecidableEq, Repr

/-- A context is the ordered list of own properties of the JS context object
(`Object.create(null)`), keyed by identifier name. -/
abbrev Ctx := List (String × Value)

/-- `Object.prototype.hasOwnProperty.call(BUILT_INS, name)`: the builtin table
has exactly the one key `Integer`. -/
def isBuiltinName (name : String) : Bool :=
  name == "Integer"

def ctxHas (ctx : Ctx) (key : String) : Bool :=
  ctx.any (fun p => p.1 == key)

/-- `context[key] = v` on a JS object: overwrite the existing property in
place, otherwise append a new one. -/
def ctxSet (ctx : Ctx) (key : String) (v : Value) : Ctx :=
  if ctxHas ctx key then
    ctx.map (fun p => if p.1 == key then (key, v) else p)
  else
    ctx ++ [(key, v)]

/-- `context[key]`: the value of the first property with that name, with
absent keys reading as `undefined`. -/
def ctxGet : Ctx → String → Value
  | [], _ => Value.undef
  | p :: rest, key => if p.1 == key then p.2 else ctxGet rest key

/-- `createContext(userContext)`: seed the builtins, then copy each
caller-supplied entry unless its key collides with a builtin name. -/
def createContext (userContext : Ctx) : Ctx :=
  let context : Ctx := [("Integer", Value.builtinInteger)]
  userContext.foldl
    (fun ctx kv => if isBuiltinName kv.1 then ctx else ctxSet ctx kv.1 kv.2)
    context

/-- `Math.trunc` on a rational: drop the fractional part, rounding toward
zero (`|num| / den` floored, with the sign of the numerator restored). -/
def jsTrunc (q : ℚ) : ℤ :=
  Int.sign q.num * (q.num.natAbs / q.den : ℕ)

/-- `Number.isInteger` on a rational. -/
def numIsInteger (q : ℚ) : Bool :=
  q.den == 1

/-- `normalizeValue`: numbers that are not integers are truncated toward
zero; every other value passes through unchanged. -/
def normalizeValue : Value → Value
  | .num q => if numIsInteger q then .num q else .num (jsTrunc q)
  | v => v

/-- The character class `[A-Za-z_]` (first character of an identifier). -/
def identStartChar (c : Char) : Bool :=
  decide (('A' ≤ c ∧ c ≤ 'Z') ∨ ('a' ≤ c ∧ c ≤ 'z') ∨ c = '_')

/-- The character class `\w` = `[A-Za-z0-9_]`. -/
def identChar (c : Char) : Bool :=
  identStartChar c || decide ('0' ≤ c ∧ c ≤ '9')

/-- The regex class `\s`, restricted to its ASCII members; the Unicode space
characters JS also includes never appear in the directives modelled here. -/
def jsWhitespace (c : Char) : Bool :=
  decide (c = ' ' ∨ c = '\t' ∨ c = '\n' ∨ c = '\r' ∨ c = '\x0b' ∨ c = '\x0c')

/-- Whether a character is matched by `.` in a JS regex (it excludes the line
terminators; the astral ones do not occur in the sources modelled here). -/
def jsDotChar (c : Char) : Bool :=
  decide (¬ (c = '\n' ∨ c = '\r'))

/-- The set-directive body regex `/^\s*\$([A-Za-z_][\w]*)\s*=\s*(.+)$/` as an
explicit parser, backtracking of the second `\s*` included: the expression
capture is everything after the maximal whitespace run following `=` when that
remainder is non-empty and free of line terminators; when the remainder is
empty the regex backtracks and captures the final whitespace character. -/
def parseSetBody (content : String) : Option (String × String) :=
  match content.toList.dropWhile jsWhitespace with
  | '$' :: rest =>
    match rest with
    | c :: _ =>
      if identStartChar c then
        let name := rest.takeWhile identChar
        let afterName := (rest.dropWhile identChar).dropWhile jsWhitespace
        match afterName with
        | '=' :: tail =>
          let expr := tail.dropWhile jsWhitespace
          if expr.isEmpty then
            match tail.getLast? with
            | some lc => if jsDotChar lc then some (String.mk name, String.mk [lc]) else none
            | none => none
          else
            if expr.all jsDotChar then some (String.mk name, String.mk expr) else none
        | _ => none
      else none
    | [] => none
  | _ => none

/-- `String(value)` as used by the interpolator.  Non-integer numbers would be
printed with JS float formatting, which is outside this model; no property
below exercises that case. -/
def valueToString : Value → String
  | .num q => if numIsInteger q then toString q.num else toString q
  | .str s => s
  | .bool b => if b then "true" else "false"
  | .builtinInteger => "[object Object]"
  | .undef => "undefined"

/-- The replacement for one `$identifier` occurrence in text:
`undefined`/`null` values become the empty string. -/
def displayValue : Value → String
  | .undef => ""
  | v => valueToString v

/-- One left-to-right pass of `text.replace(/\$([A-Za-z_][\w]*)/g, ...)`.
The fuel is the length of the remaining input; every step consumes at least
one character, so the zero-fuel case with input left is never reached. -/
def interpolateAux (ctx : Ctx) : Nat → List Char → List Char
  | _, [] => []
  | 0, _ :: _ => []
  | fuel + 1, '$' :: rest =>
    match rest with
    | c :: _ =>
      if identStartChar c then
        let name := rest.takeWhile identChar
        let rest2 := rest.dropWhile identChar
        (displayValue (ctxGet ctx (String.mk name))).toList ++ interpolateAux ctx fuel rest2
      else '$' :: interpolateAux ctx fuel rest
    | [] => ['$']
  | fuel + 1, c :: rest => c :: interpolateAux ctx fuel rest

/-- `interpolate(text, context)`. -/
def interpolate (text : String) (ctx : Ctx) : String :=
  String.mk (interpolateAux ctx text.toList.length text.toList)

/-- The errors a render call can fail with, mirroring the `Error` messages
thrown by the source. -/
inductive RenderError where
  | unterminatedDirective (startIndex : Nat)
  | setParse (content : String)
  | elseifWithoutIf
  | elseWithoutIf
  | endWithoutIf
  | unclosedIf
  | evalError (message : String)
deriving DecidableEq, Repr

/-- The scan loop of `readParenthesized`: returns the offset of the balancing
close parenthesis, tracking the nesting depth exactly as the source does. -/
def matchParen : List Char → Int → Nat → Option Nat
  | [], _, _ => none
  | c :: rest, depth, i =>
    if c = '(' then matchParen rest (depth + 1) (i + 1)
    else if c = ')' then
      (if depth - 1 = 0 then some i else matchParen rest (depth - 1) (i + 1))
    else matchParen rest depth (i + 1)

/-- `readParenthesized(template, startIndex)` on the suffix of the template
beginning at `startIndex` (the opening parenthesis): yields the content
between the outer parentheses, the remaining input past the close
parenthesis, and the cursor position past it. -/
def readParenthesized (cs : List Char) (startIndex : Nat) :
    Except RenderError (List Char × List Char × Nat) :=
  match matchParen cs 0 0 with
  | none => .error (.unterminatedDirective startIndex)
  | some i => .ok ((cs.drop 1).take (i - 1), cs.drop (i + 1), startIndex + i + 1)

/-- Token: a tagged span produced by the tokenizer. -/
inductive Token where
  | text (value : String)
  | set (content : String)
  | if_ (content : String)
  | elseif (content : String)
  | else_
  | end_
deriving DecidableEq, Repr

def startsWithChars (p : String) (cs : List Char) : Bool :=
  p.toList.isPrefixOf cs

/-- The scan loop of `tokenize`.  `cs` is the input from the current cursor,
`pos` the cursor's absolute index (for error reporting), `acc` the tokens
emitted so far.  The fuel is the length of the remaining input; every
iteration consumes at least one character, so the zero-fuel case with input
left is never reached from `tokenize`. -/
def tokenizeAux : Nat → List Char → Nat → List Token → Except RenderError (List Token)
  | _, [], _, acc => .ok acc
  | 0, _ :: _, _, acc => .ok acc
  | fuel + 1, cs, pos, acc =>
    let pre := cs.takeWhile (fun c => c != '#')
    let rest := cs.dropWhile (fun c => c != '#')
    let acc1 := if pre.isEmpty then acc else acc ++ [Token.text (String.mk pre)]
    let hpos := pos + pre.length
    match rest with
    | [] => .ok acc1
    | _ :: _ =>
      if startsWithChars "#set(" rest then
        match readParenthesized (rest.drop 4) (hpos + 4) with
        | .error e => .error e
        | .ok (content, rest2, pos2) =>
          tokenizeAux fuel rest2 pos2 (acc1 ++ [Token.set (String.mk content)])
      else if startsWithChars "#if(" rest then
        match readParenthesized (rest.drop 3) (hpos + 3) with
        | .error e => .error e
        | .ok (content, rest2, pos2) =>
          tokenizeAux fuel rest2 pos2 (acc1 ++ [Token.if_ (String.mk content)])
      else if startsWithChars "#elseif(" rest then
        match readParenthesized (rest.drop 7) (hpos + 7) with
        | .error e => .error e
        | .ok (content, rest2, pos2) =>
          tokenizeAux fuel rest2 pos2 (acc1 ++ [Token.elseif (String.mk content)])
      else if startsWithChars "#else" rest then
        tokenizeAux fuel (rest.drop 5) (hpos + 5) (acc1 ++ [Token.else_])
      else if startsWithChars "#end" rest then
        tokenizeAux fuel (rest.drop 4) (hpos + 4) (acc1 ++ [Token.end_])
      else
        tokenizeAux fuel (rest.drop 1) (hpos + 1) (acc1 ++ [Token.text "#"])

/-- `tokenize(template)`. -/
def tokenize (template : String) : Except RenderError (List Token) :=
  tokenizeAux template.toList.length template.toList 0 []

/-- A conditional-block activation record. -/
structure Frame where
  parentActive : Bool
  active : Bool
  branchSatisfied : Bool
deriving DecidableEq, Repr

/-- `Boolean(value)`: JS truthiness of the values of this model. -/
def toBoolean : Value → Bool
  | .num q => decide (q ≠ 0)
  | .str s => decide (s ≠ "")
  | .bool b => b
  | .builtinInteger => true
  | .undef => false

/-- `evaluateExpression` executes arbitrary expression text inside `node:vm`;
the state machine only observes it as this function from the expression
string and the context to a value or a thrown message, so the machine is
parameterised over it. -/
abbrev Evaluator := String → Ctx → Except String Value

/-- The interpreter's mutable state.  The JS frame stack is an array whose
top is its last element; here the top is the head of the list.  The caller's
mapping stays in scope for the whole render call without ever being written,
so it is carried as the `userCtx` component in order to state that frame
property. -/
structure RState where
  frameStack : List Frame
  output : List String
  context : Ctx
  userCtx : Ctx
deriving DecidableEq, Repr

/-- `isFrameActive(frameStack)`: every frame on the stack permits output. -/
def isFrameActive (frameStack : List Frame) : Bool :=
  frameStack.all (fun f => f.active)

/-- One iteration of the `render` token loop. -/
def renderToken (eval : Evaluator) (s : RState) : Token → Except RenderError RState
  | .text value =>
    if isFrameActive s.frameStack then
      .ok { s with output := s.output ++ [interpolate value s.context] }
    else
      .ok s
  | .set content =>
    if isFrameActive s.frameStack then
      match parseSetBody content with
      | none => .error (.setParse content)
      | some (variableName, expression) =>
        if isBuiltinName variableName then
          .ok s
        else
          match eval expression s.context with
          | .error msg => .error (.evalError msg)
          | .ok v =>
            .ok { s with context := ctxSet s.context variableName (normalizeValue v) }
    else
      .ok s
  | .if_ content =>
    let parentActive := isFrameActive s.frameStack
    if parentActive then
      match eval content s.context with
      | .error msg => .error (.evalError msg)
      | .ok v =>
        let conditionMet := toBoolean v
        .ok { s with frameStack :=
          ⟨parentActive, conditionMet && parentActive, conditionMet && parentActive⟩
            :: s.frameStack }
    else
      .ok { s with frameStack := ⟨false, false, false⟩ :: s.frameStack }
  | .elseif content =>
    match s.frameStack with
    | [] => .error .elseifWithoutIf
    | frame :: restFrames =>
      if !frame.parentActive then
        .ok { s with frameStack := { frame with active := false } :: restFrames }
      else if frame.branchSatisfied then
        .ok { s with frameStack := { frame with active := false } :: restFrames }
      else
        match eval content s.context with
        | .error msg => .error (.evalError msg)
        | .ok v =>
          let conditionMet := toBoolean v
          .ok { s with frameStack :=
            { frame with active := conditionMet, branchSatisfied := conditionMet }
              :: restFrames }
  | .else_ =>
    match s.frameStack with
    | [] => .error .elseWithoutIf
    | frame :: restFrames =>
      let shouldActivate := frame.parentActive && !frame.branchSatisfied
      .ok { s with frameStack :=
        { frame with active := shouldActivate,
                     branchSatisfied := frame.branchSatisfied || shouldActivate }
          :: restFrames }
  | .end_ =>
    match s.frameStack with
    | [] => .error .endWithoutIf
    | _ :: restFrames => .ok { s with frameStack := restFrames }

/-- The token loop of `render`. -/
def runTokens (eval : Evaluator) (s : RState) (ts : List Token) : Except RenderError RState :=
  ts.foldlM (renderToken eval) s

/-- The state at the top of `render`: empty frame stack and output, the fresh
context from `createContext`, the caller's mapping untouched beside it. -/
def initState (userContext : Ctx) : RState :=
  { frameStack := [], output := [], context := createContext userContext,
    userCtx := userContext }

/-- `render(template, userContext)`. -/
def render (eval : Evaluator) (template : String) (userContext : Ctx) :
    Except RenderError String :=
  match tokenize template with
  | .error e => .error e
  | .ok tokens =>
    match runTokens eval (initState userContext) tokens with
    | .error e => .error e
    | .ok s =>
      if s.frameStack.isEmpty then .ok (String.join s.output)
      else .error .unclosedIf

/-- The external `velocityjs` engine: from the template and the built
context to a thrown message (`.error`), a null-equivalent result
(`.ok none`), or a rendered string. -/
abbrev VelocityEngine := String → Ctx → Except String (Option String)

/-- What a `renderTemplate` call can fail with: a built-in render error, or
an exception from the external engine that nothing catches. -/
inductive TemplateError where
  | renderError (e : RenderError)
  | externalThrow (message : String)
deriving DecidableEq, Repr

/-- `renderWithVelocity(template, userContext)`: `null` when the module is
absent, otherwise whatever `velocityEngine.render` does — note the source
wraps the call in no try/catch. -/
def renderWithVelocity (engine : Option VelocityEngine) (template : String)
    (userContext : Ctx) : Except String (Option String) :=
  match engine with
  | none => .ok none
  | some engineRender => engineRender template (createContext userContext)

structure RenderOptions where
  preferVelocity : Bool := false

/-- `renderTemplate(template, userContext, options)`. -/
def renderTemplate (engine : Option VelocityEngine) (eval : Evaluator)
    (template : String) (userContext : Ctx) (options : RenderOptions) :
    Except TemplateError String :=
  if options.preferVelocity then
    match renderWithVelocity engine template userContext with
    | .error msg => .error (.externalThrow msg)
    | .ok (some rendered) => .ok rendered
    | .ok none =>
      match render eval template userContext with
      | .error e => .error (.renderError e)
      | .ok out => .ok out
  else
    match render eval template userContext with
    | .error e => .error (.renderError e)
    | .ok out => .ok out

/-- Which token kinds participate in the frame-stack discipline. -/
def isChainToken : Token → Bool
  | .elseif _ => true
  | .else_ => true
  | .end_ => true
  | _ => false

/-- The structural errors: frame-stack misuse, as opposed to tokenize, set
parse and expression evaluation failures. -/
def isStructuralError : RenderError → Bool
  | .elseifWithoutIf => true
  | .elseWithoutIf => true
  | .endWithoutIf => true
  | .unclosedIf => true
  | _ => false

/-- Whether a render step or render call failed with a structural error. -/
def structuralFailure {α : Type} : Except RenderError α → Bool
  | .error e => isStructuralError e
  | .ok _ => false

/-- A sample evaluator that holds every condition true. -/
def evalTrue : Evaluator := fun _ _ => .ok (.bool true)

/-- A sample evaluator that throws on every expression: a render step that
succeeds under it cannot have consulted the evaluator. -/
def evalBoom : Evaluator := fun _ _ => .error "boom"

/-- A sample evaluator knowing just the expression `1 + 1`. -/
def evalPlus : Evaluator := fun expr _ =>
  if expr = "1 + 1" then .ok (.num 2) else .error "unexpected expression"

/-- A sample evaluator knowing just the expression `10 / 3`, whose value is
the non-integer rational 10/3 — division is exact at evaluation time. -/
def evalTenThirds : Evaluator := fun expr _ =>
  if expr = "10 / 3" then .ok (.num (mkRat 10 3)) else .error "unexpected expression"

/-- A sample evaluator knowing just the expression `-7 / 2`. -/
def evalNegSevenHalves : Evaluator := fun expr _ =>
  if expr = "-7 / 2" then .ok (.num (mkRat (-7) 2)) else .error "unexpected expression"

/-- An external engine whose `render` always throws. -/
def throwingEngine : Option VelocityEngine := some fun _ _ => .error "velocity failure"

/-- An external engine whose `render` returns a null-equivalent result. -/
def nullishEngine : Option VelocityEngine := some fun _ _ => .ok none

/-- A state inside a conditional branch that is currently skipped. -/
def inactiveState : RState :=
  { frameStack := [⟨true, false, false⟩], output := [],
    context := [("Integer", Value.builtinInteger)], userCtx := [] }

/-- A state whose innermost chain has already taken a branch and is now
between branches (`active` off, `branchSatisfied` on). -/
def satisfiedState : RState :=
  { frameStack := [⟨true, false, true⟩], output := [],
    context := [("Integer", Value.builtinInteger)], userCtx := [] }

/-- A state whose innermost frame was opened inside an already-skipped scope
(`parentActive` off). -/
def skippedChainState : RState :=
  { frameStack := [⟨false, false, false⟩], output := [],
    context := [("Integer", Value.builtinInteger)], userCtx := [] }

end VTL

namespace VTL

/-! ### Context lemmas -/

theorem ctxGet_map_set_ne (k key : String) (v : Value) (h : key ≠ k) :
    ∀ ctx : Ctx,
      ctxGet (ctx.map (fun p => if p.1 == k then (k, v) else p)) key = ctxGet ctx key := by
  intro ctx
  induction ctx with
  | nil => rfl
  | cons p rest ih =>
    by_cases hp : p.1 = k
    · simp [ctxGet, hp, h, Ne.symm h]
      simpa using ih
    · by_cases hkey : p.1 = key
      · simp [ctxGet, hp, hkey, h]
      · simp [ctxGet, hp, hkey]
        simpa using ih

theorem ctxGet_append_ne (k key : String) (v : Value) (h : key ≠ k) :
    ∀ ctx : Ctx, ctxGet (ctx ++ [(k, v)]) key = ctxGet ctx key := by
  intro ctx
  induction ctx with
  | nil => simp [ctxGet, Ne.symm h]
  | cons p rest ih =>
    by_cases hkey : p.1 = key
    · simp [ctxGet, hkey]
    · simp [ctxGet, hkey, ih]

theorem ctxGet_ctxSet_ne (ctx : Ctx) (k key : String) (v : Value) (h : key ≠ k) :
    ctxGet (ctxSet ctx k v) key = ctxGet ctx key := by
  unfold ctxSet
  by_cases hh : ctxHas ctx k
  · simp only [hh, if_true]
    exact ctxGet_map_set_ne k key v h ctx
  · simp only [hh, Bool.false_eq_true, if_false]
    exact ctxGet_append_ne k key v h ctx

theorem not_builtin_ne_integer (name : String) (h : ¬ isBuiltinName name = true) :
    ("Integer" : String) ≠ name := by
  intro e
  rw [← e] at h
  simp [isBuiltinName] at h

theorem createContext_keeps_integer (user : Ctx) :
    ctxGet (createContext user) "Integer" = Value.builtinInteger := by
  unfold createContext
  have base : ctxGet [("Integer", Value.builtinInteger)] "Integer" = Value.builtinInteger := by
    simp [ctxGet]
  generalize [("Integer", Value.builtinInteger)] = ctx at base ⊢
  induction user generalizing ctx with
  | nil => exact base
  | cons kv rest ih =>
    rw [List.foldl_cons]
    by_cases hb : isBuiltinName kv.1
    · simp only [hb, if_true]
      exact ih ctx base
    · simp only [hb, Bool.false_eq_true, if_false]
      refine ih _ ?_
      rw [ctxGet_ctxSet_ne _ _ _ _ (not_builtin_ne_integer kv.1 hb)]
      exact base

theorem createContext_foldl_filter (user : Ctx) : ∀ ctx : Ctx,
    List.foldl (fun ctx kv => if isBuiltinName kv.1 then ctx else ctxSet ctx kv.1 kv.2)
        ctx user =
      List.foldl (fun ctx kv => if isBuiltinName kv.1 then ctx else ctxSet ctx kv.1 kv.2)
        ctx (user.filter fun kv => !isBuiltinName kv.1) := by
  induction user with
  | nil => intro ctx; rfl
  | cons kv rest ih =>
    intro ctx
    by_cases hb : isBuiltinName kv.1
    · have hb' : (!isBuiltinName kv.1) = false := by simp [hb]
      simp only [List.filter_cons, hb', Bool.false_eq_true, if_false, List.foldl_cons,
        hb, if_true]
      exact ih ctx
    · have hb0 : isBuiltinName kv.1 = false := by simpa using hb
      simp [List.filter_cons, List.foldl_cons, hb0]
      exact ih (ctxSet ctx kv.1 kv.2)

theorem createContext_drops_builtin_entries (user : Ctx) :
    createContext user = createContext (user.filter fun kv => !isBuiltinName kv.1) := by
  unfold createContext
  exact createContext_foldl_filter user _

/-! ### Token-loop lemmas -/

theorem runTokens_nil (eval : Evaluator) (s : RState) : runTokens eval s [] = .ok s := rfl

theorem runTokens_cons (eval : Evaluator) (s : RState) (t : Token) (ts : List Token) :
    runTokens eval s (t :: ts) =
      match renderToken eval s t with
      | .error e => .error e
      | .ok s₁ => runTokens eval s₁ ts := by
  rw [runTokens, List.foldlM_cons]
  cases renderToken eval s t <;> rfl

theorem renderToken_userCtx (eval : Evaluator) (s : RState) (t : Token) (s' : RState)
    (h : renderToken eval s t = .ok s') : s'.userCtx = s.userCtx := by
  cases t <;> simp only [renderToken] at h <;>
    (repeat' split at h) <;>
    (first
      | (injection h with h; subst h; rfl)
      | simp at h)

theorem runTokens_userCtx (eval : Evaluator) (ts : List Token) :
    ∀ s s' : RState, runTokens eval s ts = .ok s' → s'.userCtx = s.userCtx := by
  induction ts with
  | nil =>
    intro s s' h
    rw [runTokens_nil] at h
    injection h with h
    rw [← h]
  | cons t ts ih =>
    intro s s' h
    rw [runTokens_cons] at h
    cases ht : renderToken eval s t with
    | error e => rw [ht] at h; exact absurd h (by simp)
    | ok s₁ =>
      rw [ht] at h
      rw [ih s₁ s' h, renderToken_userCtx eval s t s₁ ht]

theorem satisfied_chain_step (eval : Evaluator) (s : RState) (f : Frame)
    (restFrames : List Frame) (t : Token)
    (hs : s.frameStack = f :: restFrames)
    (hsat : f.branchSatisfied = true)
    (ht : (∃ c, t = Token.elseif c) ∨ t = Token.else_) :
    renderToken eval s t =
      .ok { s with frameStack := { f with active := false } :: restFrames } := by
  rcases ht with ⟨c, rfl⟩ | rfl
  · by_cases hp : f.parentActive <;> simp [renderToken, hs, hsat, hp]
  · simp [renderToken, hs, hsat]

/-! ### Structural-error lemmas -/

theorem renderToken_structural_iff (eval : Evaluator) (s : RState) (t : Token) :
    structuralFailure (renderToken eval s t) = true ↔
      (isChainToken t = true ∧ s.frameStack = []) := by
  cases t <;> simp only [renderToken, isChainToken] <;>
    (repeat' split) <;>
    simp_all [structuralFailure, isStructuralError]

theorem runTokens_structural_iff (eval : Evaluator) (ts : List Token) :
    ∀ s : RState,
      (structuralFailure (runTokens eval s ts) = true ↔
        ∃ pre t suf s', ts = pre ++ t :: suf ∧ runTokens eval s pre = .ok s' ∧
          isChainToken t = true ∧ s'.frameStack = []) := by
  induction ts with
  | nil =>
    intro s
    constructor
    · intro h
      rw [runTokens_nil] at h
      exact absurd h (by simp [structuralFailure])
    · rintro ⟨pre, t, suf, s', hsplit, -, -, -⟩
      exact absurd hsplit (by simp)
  | cons t ts ih =>
    intro s
    cases ht : renderToken eval s t with
    | error e =>
      have hrun : runTokens eval s (t :: ts) = .error e := by
        rw [runTokens_cons, ht]
      have hiff := renderToken_structural_iff eval s t
      rw [ht] at hiff
      rw [hrun]
      constructor
      · intro h
        have hce := hiff.mp h
        exact ⟨[], t, ts, s, rfl, runTokens_nil eval s, hce.1, hce.2⟩
      · rintro ⟨pre, t', suf, s', hsplit, hpre, hct, hemp⟩
        cases pre with
        | nil =>
          injection hsplit with h1 h2
          subst h1
          rw [runTokens_nil] at hpre
          injection hpre with hpre
          subst hpre
          exact hiff.mpr ⟨hct, hemp⟩
        | cons t₀ pre' =>
          injection hsplit with h1 h2
          subst h1
          have hbad : runTokens eval s (t :: pre') = .error e := by
            rw [runTokens_cons, ht]
          rw [hbad] at hpre
          exact absurd hpre (by simp)
    | ok s₁ =>
      have hrun : runTokens eval s (t :: ts) = runTokens eval s₁ ts := by
        rw [runTokens_cons, ht]
      rw [hrun]
      constructor
      · intro h
        obtain ⟨pre, t', suf, s', hsplit, hpre, hct, hemp⟩ := (ih s₁).mp h
        refine ⟨t :: pre, t', suf, s', by simp [hsplit], ?_, hct, hemp⟩
        rw [runTokens_cons, ht]
        exact hpre
      · rintro ⟨pre, t', suf, s', hsplit, hpre, hct, hemp⟩
        cases pre with
        | nil =>
          injection hsplit with h1 h2
          subst h1
          rw [runTokens_nil] at hpre
          injection hpre with hpre
          subst hpre
          have hbad := (renderToken_structural_iff eval s t).mpr ⟨hct, hemp⟩
          rw [ht] at hbad
          exact absurd hbad (by simp [structuralFailure])
        | cons t₀ pre' =>
          injection hsplit with h1 h2
          subst h1
          have hpre' : runTokens eval s₁ pre' = .ok s' := by
            have he : runTokens eval s (t :: pre') = runTokens eval s₁ pre' := by
              rw [runTokens_cons, ht]
            rw [he] at hpre
            exact hpre
          exact (ih s₁).mpr ⟨pre', t', suf, s', h2, hpre', hct, hemp⟩

theorem readParenthesized_error (cs : List Char) (si : Nat) (e : RenderError)
    (h : readParenthesized cs si = .error e) : e = .unterminatedDirective si := by
  unfold readParenthesized at h
  cases hm : matchParen cs 0 0 with
  | none =>
    rw [hm] at h
    injection h with h
    exact h.symm
  | some i =>
    rw [hm] at h
    exact absurd h (by simp)

theorem tokenizeAux_error_unterminated :
    ∀ (fuel : Nat) (cs : List Char) (pos : Nat) (acc : List Token) (e : RenderError),
      tokenizeAux fuel cs pos acc = .error e → ∃ i, e = .unterminatedDirective i := by
  intro fuel
  induction fuel with
  | zero =>
    intro cs pos acc e h
    cases cs with
    | nil => exact absurd h (by simp [tokenizeAux])
    | cons c cs' => exact absurd h (by simp [tokenizeAux])
  | succ fuel ih =>
    intro cs pos acc e h
    cases cs with
    | nil => exact absurd h (by simp [tokenizeAux])
    | cons c cs' =>
      simp only [tokenizeAux] at h
      repeat' split at h
      all_goals
        first
        | exact Except.noConfusion h
        | (injection h with h
           subst h
           exact ⟨_, readParenthesized_error _ _ _ (by assumption)⟩)
        | exact ih _ _ _ _ h

theorem tokenize_error_not_structural (template : String) (e : RenderError)
    (h : tokenize template = .error e) : isStructuralError e = false := by
  obtain ⟨i, rfl⟩ := tokenizeAux_error_unterminated _ _ _ _ _ h
  rfl

end VTL

namespace VTL

/-! ### Claim theorems -/

/-- C1: the claim says whitespace between a directive keyword and `(` is
tolerated — `#if (expr)` should yield the same token sequence and render
result as `#if(expr)`.  The tokenizer only matches the exact strings
`#set(`/`#if(`/`#elseif(`, so the spaced form is emitted as literal text
(and `#elseif (x)` even becomes an `else` token), and rendering the spaced
template fails where the unspaced one succeeds. -/
theorem c1_whitespace_before_paren_not_tolerated :
    tokenize "#if (true)A#end" =
      .ok [Token.text "#", Token.text "if (true)A", Token.end_] ∧
    tokenize "#if(true)A#end" =
      .ok [Token.if_ "true", Token.text "A", Token.end_] ∧
    tokenize "#elseif (x)" = .ok [Token.else_, Token.text "if (x)"] ∧
    render evalTrue "#if (true)A#end" [] = .error .endWithoutIf ∧
    render evalTrue "#if(true)A#end" [] = .ok "A" := by
  refine ⟨by decide, by decide, by decide, by decide, by decide⟩

/-- C2: the claim says that when the external velocity renderer returns a
null-equivalent value or throws, `renderTemplate` falls back to the built-in
`render`.  The null-equivalent and engine-absent cases do fall back, but a
throw is caught nowhere in `renderWithVelocity`/`renderTemplate`, so it
propagates and aborts the call even though the built-in render would
succeed. -/
theorem c2_external_throw_propagates :
    renderTemplate throwingEngine evalPlus "#set($value = 1 + 1)\n$value" [] ⟨true⟩ =
      .error (.externalThrow "velocity failure") ∧
    render evalPlus "#set($value = 1 + 1)\n$value" [] = .ok "\n2" ∧
    renderTemplate nullishEngine evalPlus "#set($value = 1 + 1)\n$value" [] ⟨true⟩ =
      .ok "\n2" ∧
    renderTemplate none evalPlus "#set($value = 1 + 1)\n$value" [] ⟨true⟩ = .ok "\n2" := by
  refine ⟨by decide, by decide, by decide, by decide⟩

/-- C3: an active `#set` stores `normalizeValue` of the evaluator's raw
result: a non-integer number is truncated toward zero at assignment time
(and only then), while integers, strings and booleans are stored unchanged;
in particular 10/3 is stored as 3 and −7/2 as −3 (truncation toward zero,
whereas the floor of −7/2 is −4). -/
theorem c3_set_truncates_toward_zero_at_assignment (eval : Evaluator) (s : RState)
    (content variableName expression : String) (v : Value)
    (hact : isFrameActive s.frameStack = true)
    (hparse : parseSetBody content = some (variableName, expression))
    (hname : isBuiltinName variableName = false)
    (heval : eval expression s.context = .ok v) :
    renderToken eval s (.set content) =
      .ok { s with context := ctxSet s.context variableName (normalizeValue v) } ∧
    (∀ q : ℚ, q.den ≠ 1 → normalizeValue (.num q) = .num (jsTrunc q)) ∧
    (∀ q : ℚ, q.den = 1 → normalizeValue (.num q) = .num q) ∧
    (∀ str, normalizeValue (.str str) = .str str) ∧
    (∀ b, normalizeValue (.bool b) = .bool b) ∧
    (mkRat 10 3 = (10 : ℚ) / 3 ∧ normalizeValue (.num (mkRat 10 3)) = .num 3) ∧
    (mkRat (-7) 2 = (-7 : ℚ) / 2 ∧ normalizeValue (.num (mkRat (-7) 2)) = .num (-3) ∧
      ⌊(mkRat (-7) 2 : ℚ)⌋ = -4) := by
  refine ⟨?_, ?_, ?_, fun _ => rfl, fun _ => rfl, ⟨?_, by decide⟩, ⟨?_, by decide, ?_⟩⟩
  · simp [renderToken, hact, hparse, hname, heval]
  · intro q hq
    simp [normalizeValue, numIsInteger, hq]
  · intro q hq
    simp [normalizeValue, numIsInteger, hq]
  · rw [Rat.mkRat_eq_div]; norm_num
  · rw [Rat.mkRat_eq_div]; norm_num
  · norm_num [Rat.mkRat_eq_div]

/-- Witness for C3 at the concrete directive `#set($v = 10 / 3)`. -/
theorem c3_set_truncates_toward_zero_at_assignment_witness :
    (isFrameActive (initState []).frameStack = true ∧
      parseSetBody "$v = 10 / 3" = some ("v", "10 / 3") ∧
      isBuiltinName "v" = false ∧
      evalTenThirds "10 / 3" (initState []).context = .ok (.num (mkRat 10 3))) ∧
    renderToken evalTenThirds (initState []) (.set "$v = 10 / 3") =
      .ok { initState [] with
            context := ctxSet (initState []).context "v"
              (normalizeValue (.num (mkRat 10 3))) } ∧
    ctxGet (ctxSet (initState []).context "v" (normalizeValue (.num (mkRat 10 3)))) "v" =
      .num 3 :=
  ⟨⟨by decide, by decide, by decide, by decide⟩,
   (c3_set_truncates_toward_zero_at_assignment evalTenThirds (initState [])
      "$v = 10 / 3" "v" "10 / 3" (.num (mkRat 10 3))
      (by decide) (by decide) (by decide) (by decide)).1,
   by decide⟩

/-- C4: the builtin binding `Integer` can never be overwritten: a
caller-supplied entry of that name is dropped by `createContext`, an active
`#set` targeting it is a silent no-op, and no successful render step ever
changes what the context yields for `Integer`. -/
theorem c4_builtin_integer_never_overwritten (user : Ctx) (eval : Evaluator)
    (s : RState) (content expression : String) :
    ctxGet (createContext user) "Integer" = Value.builtinInteger ∧
    createContext user = createContext (user.filter fun kv => !isBuiltinName kv.1) ∧
    (isFrameActive s.frameStack = true →
      parseSetBody content = some ("Integer", expression) →
      renderToken eval s (.set content) = .ok s) ∧
    (∀ (t : Token) (s' : RState), ctxGet s.context "Integer" = Value.builtinInteger →
      renderToken eval s t = .ok s' →
      ctxGet s'.context "Integer" = Value.builtinInteger) := by
  refine ⟨createContext_keeps_integer user, createContext_drops_builtin_entries user,
    ?_, ?_⟩
  · intro hact hparse
    simp [renderToken, hact, hparse, isBuiltinName]
  · intro t s' hint h
    cases t <;> simp only [renderToken] at h <;>
      (repeat' split at h) <;>
      (first
        | exact Except.noConfusion h
        | (injection h with h
           subst h
           first
           | exact hint
           | exact (ctxGet_ctxSet_ne s.context _ "Integer" _
               (not_builtin_ne_integer _ (by assumption))).trans hint))

/-- Witness for C4 at a caller mapping that tries to shadow `Integer` and at
the concrete directive `#set($Integer = 1)`. -/
theorem c4_builtin_integer_never_overwritten_witness :
    ctxGet (createContext [("Integer", Value.str "shadow"), ("a", Value.num 1)])
      "Integer" = Value.builtinInteger ∧
    renderToken evalBoom (initState []) (.set "$Integer = 1") = .ok (initState []) :=
  ⟨(c4_builtin_integer_never_overwritten
      [("Integer", Value.str "shadow"), ("a", Value.num 1)] evalBoom (initState [])
      "$Integer = 1" "1").1,
   (c4_builtin_integer_never_overwritten
      [("Integer", Value.str "shadow"), ("a", Value.num 1)] evalBoom (initState [])
      "$Integer = 1" "1").2.2.1 (by decide) (by decide)⟩

/-- C5: within one `if`/`elseif*`/`else` chain, once the top frame's
`branchSatisfied` flag is set, every subsequent `elseif`/`else` token of the
chain succeeds without evaluating anything and leaves the frame inactive
(with `branchSatisfied` still set), for every evaluator and every such
suffix of chain tokens. -/
theorem c5_at_most_one_branch_per_chain (eval : Evaluator) (s : RState) (f : Frame)
    (restFrames : List Frame) (chain : List Token)
    (hs : s.frameStack = f :: restFrames)
    (hsat : f.branchSatisfied = true)
    (hchain : ∀ t ∈ chain, (∃ c, t = Token.elseif c) ∨ t = Token.else_) :
    ∃ s' f', runTokens eval s chain = .ok s' ∧
      s'.frameStack = f' :: restFrames ∧
      f'.branchSatisfied = true ∧
      f'.parentActive = f.parentActive ∧
      (chain = [] → f' = f) ∧
      (chain ≠ [] → f'.active = false) ∧
      s'.output = s.output ∧ s'.context = s.context := by
  induction chain generalizing s f with
  | nil =>
    exact ⟨s, f, rfl, hs, hsat, rfl, fun _ => rfl, fun h => absurd rfl h, rfl, rfl⟩
  | cons t ts ih =>
    have hstep := satisfied_chain_step eval s f restFrames t hs hsat
      (hchain t (List.mem_cons_self t ts))
    obtain ⟨s', f', hrun, hfs, hbs, hpa, hnil, hact, hout, hctx⟩ :=
      ih { s with frameStack := { f with active := false } :: restFrames }
        { f with active := false } rfl hsat
        (fun t' ht' => hchain t' (List.mem_cons_of_mem t ht'))
    refine ⟨s', f', ?_, hfs, hbs, hpa, ?_, ?_, hout, hctx⟩
    · rw [runTokens_cons, hstep]
      exact hrun
    · intro h
      exact absurd h (List.cons_ne_nil t ts)
    · intro _
      by_cases hts : ts = []
      · subst hts
        rw [hnil rfl]
      · exact hact hts

/-- Witness for C5: a satisfied chain followed by `#elseif` and `#else`,
under the always-throwing evaluator. -/
theorem c5_at_most_one_branch_per_chain_witness :
    ∃ s' f', runTokens evalBoom satisfiedState [Token.elseif "x", Token.else_] = .ok s' ∧
      s'.frameStack = f' :: [] ∧
      f'.branchSatisfied = true ∧
      f'.parentActive = (⟨true, false, true⟩ : Frame).parentActive ∧
      ([Token.elseif "x", Token.else_] = ([] : List Token) →
        f' = (⟨true, false, true⟩ : Frame)) ∧
      ([Token.elseif "x", Token.else_] ≠ ([] : List Token) → f'.active = false) ∧
      s'.output = satisfiedState.output ∧ s'.context = satisfiedState.context :=
  c5_at_most_one_branch_per_chain evalBoom satisfiedState ⟨true, false, true⟩ []
    [Token.elseif "x", Token.else_] (by decide) (by decide)
    (by
      intro t ht
      simp only [List.mem_cons, List.mem_singleton] at ht
      rcases ht with rfl | rfl | h
      · exact Or.inl ⟨"x", rfl⟩
      · exact Or.inr rfl
      · exact absurd h (by simp))

/-- C6: an `#if` in an inactive scope and an `#elseif` whose frame's
`parentActive` is false never evaluate their condition — the step result is
fixed (frame pushed or updated with `active = false`) for every evaluator,
including one that would throw. -/
theorem c6_inactive_scope_skips_condition_evaluation (eval : Evaluator) (s : RState)
    (content : String) :
    (isFrameActive s.frameStack = false →
      renderToken eval s (.if_ content) =
        .ok { s with frameStack := ⟨false, false, false⟩ :: s.frameStack }) ∧
    (∀ frame restFrames, s.frameStack = frame :: restFrames →
      frame.parentActive = false →
      renderToken eval s (.elseif content) =
        .ok { s with frameStack := { frame with active := false } :: restFrames }) := by
  constructor
  · intro h
    simp [renderToken, h]
  · intro frame restFrames hs hp
    simp [renderToken, hs, hp]

/-- Witness for C6 with the always-throwing evaluator and a condition that
would fail if it were ever evaluated. -/
theorem c6_inactive_scope_skips_condition_evaluation_witness :
    renderToken evalBoom inactiveState (.if_ "1 /") =
      .ok { inactiveState with
            frameStack := ⟨false, false, false⟩ :: inactiveState.frameStack } ∧
    renderToken evalBoom skippedChainState (.elseif "1 /") =
      .ok { skippedChainState with
            frameStack := [{ (⟨false, false, false⟩ : Frame) with active := false }] } :=
  ⟨(c6_inactive_scope_skips_condition_evaluation evalBoom inactiveState "1 /").1
      (by decide),
   (c6_inactive_scope_skips_condition_evaluation evalBoom skippedChainState "1 /").2
      ⟨false, false, false⟩ [] (by decide) (by decide)⟩

/-- C7: a render step fails structurally exactly when an
`elseif`/`else`/`end` token meets an empty frame stack, and a whole render
call fails structurally exactly when either its token stream decomposes so
that such a token is reached with an empty stack, or the full run succeeds
with a non-empty stack left (an unclosed `#if`); in every other situation no
structural error is raised. -/
theorem c7_structural_error_characterization (eval : Evaluator) (template : String)
    (user : Ctx) :
    (∀ (s : RState) (t : Token),
      structuralFailure (renderToken eval s t) = true ↔
        (isChainToken t = true ∧ s.frameStack = [])) ∧
    (structuralFailure (render eval template user) = true ↔
      ∃ toks, tokenize template = .ok toks ∧
        ((∃ pre t suf s', toks = pre ++ t :: suf ∧
            runTokens eval (initState user) pre = .ok s' ∧
            isChainToken t = true ∧ s'.frameStack = []) ∨
         (∃ s', runTokens eval (initState user) toks = .ok s' ∧
            s'.frameStack ≠ []))) := by
  refine ⟨fun s t => renderToken_structural_iff eval s t, ?_⟩
  cases htok : tokenize template with
  | error e =>
    have hr : render eval template user = .error e := by
      simp [render, htok]
    have hns := tokenize_error_not_structural template e htok
    constructor
    · intro h
      rw [hr] at h
      simp [structuralFailure, hns] at h
    · rintro ⟨toks, htoks, -⟩
      exact Except.noConfusion htoks
  | ok toks =>
    cases hrun : runTokens eval (initState user) toks with
    | error e =>
      have hr : render eval template user = .error e := by
        simp [render, htok, hrun]
      rw [hr]
      constructor
      · intro h
        refine ⟨toks, rfl, Or.inl ?_⟩
        exact (runTokens_structural_iff eval toks (initState user)).mp
          (by rw [hrun]; exact h)
      · rintro ⟨toks', htoks', hcase⟩
        injection htoks' with htoks'
        subst htoks'
        rcases hcase with hdec | ⟨s', hok, -⟩
        · have hsf := (runTokens_structural_iff eval toks (initState user)).mpr hdec
          rw [hrun] at hsf
          exact hsf
        · rw [hrun] at hok
          exact Except.noConfusion hok
    | ok s =>
      by_cases hempty : s.frameStack.isEmpty
      · have hr : render eval template user = .ok (String.join s.output) := by
          simp [render, htok, hrun, hempty]
        rw [hr]
        constructor
        · intro h
          simp [structuralFailure] at h
        · rintro ⟨toks', htoks', hcase⟩
          injection htoks' with htoks'
          subst htoks'
          rcases hcase with hdec | ⟨s', hok, hne⟩
          · have hsf := (runTokens_structural_iff eval toks (initState user)).mpr hdec
            rw [hrun] at hsf
            simp [structuralFailure] at hsf
          · rw [hrun] at hok
            injection hok with hok
            subst hok
            exact absurd (by simpa using hempty) hne
      · have hr : render eval template user = .error .unclosedIf := by
          simp [render, htok, hrun, hempty]
        rw [hr]
        constructor
        · intro _
          refine ⟨toks, rfl, Or.inr ⟨s, hrun, ?_⟩⟩
          intro h
          exact hempty (by rw [h]; rfl)
        · intro _
          rfl

/-- Witness for C7: an `#end` on an empty frame stack fails structurally. -/
theorem c7_structural_error_characterization_witness :
    structuralFailure (renderToken evalTrue (initState []) Token.end_) = true :=
  ((c7_structural_error_characterization evalTrue "" []).1 (initState []) Token.end_).mpr
    ⟨by decide, by decide⟩

/-- C9: neither `createContext` nor the render loop writes to the caller's
mapping: the initial state carries the caller's mapping unchanged beside the
freshly built context, and every successful run of the token loop leaves
that component exactly as it was. -/
theorem c9_caller_mapping_preserved (eval : Evaluator) (user : Ctx) (ts : List Token) :
    (initState user).userCtx = user ∧
    (∀ s s' : RState, runTokens eval s ts = .ok s' → s'.userCtx = s.userCtx) :=
  ⟨rfl, runTokens_userCtx eval ts⟩

/-- Witness for C9 on a concrete render run that interpolates and assigns. -/
theorem c9_caller_mapping_preserved_witness :
    runTokens evalTrue (initState [("a", Value.num 1)]) [Token.text "x$a"] =
      .ok { initState [("a", Value.num 1)] with output := ["x1"] } ∧
    ({ initState [("a", Value.num 1)] with output := ["x1"] } : RState).userCtx =
      (initState [("a", Value.num 1)]).userCtx :=
  ⟨by decide,
   (c9_caller_mapping_preserved evalTrue [("a", Value.num 1)] [Token.text "x$a"]).2
     (initState [("a", Value.num 1)])
     { initState [("a", Value.num 1)] with output := ["x1"] } (by decide)⟩

/-- C10: a `#set` token reached while the active predicate is false is a
complete no-op: the body is never parsed (a body that could not parse does
not fail) and the state — context included — is returned unchanged, for
every evaluator. -/
theorem c10_inactive_set_complete_noop (eval : Evaluator) (s : RState)
    (content : String) (h : isFrameActive s.frameStack = false) :
    renderToken eval s (.set content) = .ok s := by
  simp [renderToken, h]

/-- Witness for C10 with a body that would be a parse error if active. -/
theorem c10_inactive_set_complete_noop_witness :
    parseSetBody "this is not a set body" = none ∧
    renderToken evalBoom inactiveState (.set "this is not a set body") =
      .ok inactiveState :=
  ⟨by decide,
   c10_inactive_set_complete_noop evalBoom inactiveState "this is not a set body"
     (by decide)⟩

end VTL
